import Mathlib

/-!
Shallow embedding of the networked five-in-a-row game in `main.go`
(repository COAOX/tictactoe), together with proofs about its board
logic and its two event handlers.

The Go program keeps one authoritative `GameState` (board, current
player, winner, game-over flag, local player id, chat history) and
mutates it from exactly two places, both serialized by the main event
loop: `handleNetworkMessage` (inbound protocol messages) and
`handleUserInput` (local console lines).  Pure board logic lives in
`checkWinLogic`, `checkDrawLogic` and `placePieceInternal`.

The embedding below is a line-by-line translation of these functions:
Go `[][]int` boards become `List (List Int)`, Go `int` becomes `Int`,
in-place mutation becomes functional record update, and the goroutine
`go gs.SendMessage(...)` calls become an explicit list of queued
outbound messages returned by the handler.
-/

set_option autoImplicit false

namespace Gomoku

/-- Go constant `BoardSize = 15`. -/
def BoardSize : Nat := 15

/-- Go constant `Empty = 0`. -/
def EmptyCell : Int := 0

/-- Go constant `Player1 = 1`. -/
def Player1 : Int := 1

/-- Go constant `Player2 = 2`. -/
def Player2 : Int := 2

/-- Go message-type constant `MsgTypeMove = "move"`. -/
def MsgTypeMove : String := "move"

/-- Go message-type constant `MsgTypeChat = "chat"`. -/
def MsgTypeChat : String := "chat"

/-- Go message-type constant `MsgTypeState = "state"`. -/
def MsgTypeState : String := "state"

/-- Go message-type constant `MsgTypeAssign = "assign"`. -/
def MsgTypeAssign : String := "assign"

/-- Go message-type constant `MsgTypeError = "error"`. -/
def MsgTypeError : String := "error"

/-- Go message-type constant `MsgTypeNotify = "notify"`. -/
def MsgTypeNotify : String := "notify"

/-- The Go board type `[][]int`: a list of rows of cells. -/
abbrev Board := List (List Int)

/-- Go function `NewBoard(size)` from `main.go`: a `size × size` grid of `Empty` cells. -/
def NewBoard (size : Nat) : Board :=
  List.replicate size (List.replicate size EmptyCell)

/-- Reading `board[i][j]`.  All reads in the Go source are guarded so the
indices are in range; out-of-range reads return the `Empty` value `0`
(they never occur on the guarded paths). -/
def getCell (b : Board) (i j : Nat) : Int :=
  (b.getD i []).getD j EmptyCell

/-- Writing `board[i][j] = v`. -/
def setCell (b : Board) (i j : Nat) (v : Int) : Board :=
  b.set i ((b.getD i []).set j v)

/-- The body of the two nested loops of `checkWinLogic` at a fixed cell
`(i, j)`: `board[i][j] == player` and then the four direction probes
(horizontal, vertical, the two diagonals), each guarded by the board
edge exactly as in the Go source.  `j - 4 >= 0` on Go ints becomes
`4 ≤ j` on naturals, after which the truncated subtractions `j - k`
agree with Go. -/
def winFrom (board : Board) (player : Int) (size i j : Nat) : Bool :=
  (getCell board i j == player) &&
    ((decide (j + 4 < size) && (getCell board i (j+1) == player) &&
        (getCell board i (j+2) == player) && (getCell board i (j+3) == player) &&
        (getCell board i (j+4) == player))
     || (decide (i + 4 < size) && (getCell board (i+1) j == player) &&
        (getCell board (i+2) j == player) && (getCell board (i+3) j == player) &&
        (getCell board (i+4) j == player))
     || (decide (i + 4 < size) && decide (j + 4 < size) &&
        (getCell board (i+1) (j+1) == player) && (getCell board (i+2) (j+2) == player) &&
        (getCell board (i+3) (j+3) == player) && (getCell board (i+4) (j+4) == player))
     || (decide (i + 4 < size) && decide (4 ≤ j) &&
        (getCell board (i+1) (j-1) == player) && (getCell board (i+2) (j-2) == player) &&
        (getCell board (i+3) (j-3) == player) && (getCell board (i+4) (j-4) == player)))

/-- Go function `checkWinLogic(board, player)` from `main.go`: scan every cell of the
board and return true as soon as some cell starts a five-in-a-row run
for `player` in one of the four probed directions. -/
def checkWinLogic (board : Board) (player : Int) : Bool :=
  let size := board.length
  (List.range size).any (fun i =>
    (List.range size).any (fun j => winFrom board player size i j))

/-- Go function `checkDrawLogic(board)` from `main.go`: true iff no cell is `Empty`. -/
def checkDrawLogic (board : Board) : Bool :=
  board.all (fun row => row.all (fun cell => cell != EmptyCell))

/-- Go method `placePieceInternal(x, y, player)` from `main.go`, with the board made
explicit: returns the Go function's boolean result together with the
board after the call.  The Go method mutates `gs.board[x][y]` only when
it returns `true`. -/
def placePieceInternal (b : Board) (x y player : Int) : Bool × Board :=
  if x < 0 ∨ (BoardSize : Int) ≤ x ∨ y < 0 ∨ (BoardSize : Int) ≤ y ∨
      getCell b x.toNat y.toNat ≠ EmptyCell then
    (false, b)
  else
    (true, setCell b x.toNat y.toNat player)

/-- The wire `Message` struct from `main.go`.  Fields irrelevant to a
given message kind are zero-valued, as with Go's `omitempty` JSON
encoding. -/
structure Message where
  type : String
  player : Int := 0
  x : Int := 0
  y : Int := 0
  content : String := ""
  turn : Int := 0
  winner : Int := 0
deriving DecidableEq

/-- The mutex-guarded game state of `main.go` (the lock itself, the
connection and the channels are concurrency plumbing with no bearing on
the state transitions and are not modelled). -/
structure GameState where
  board : Board
  currentPlayer : Int
  winner : Int
  gameOver : Bool
  playerID : Int
  chatHistory : List String
deriving DecidableEq

/-- Go method `AddChatMessage(sender, message)` from `main.go`: append
`"[sender]: message"` and evict the oldest entries beyond 20. -/
def AddChatMessage (history : List String) (sender message : String) : List String :=
  let h := history ++ [("[" ++ sender ++ "]: " ++ message)]
  if h.length > 20 then h.drop (h.length - 20) else h

/-- Go method `handleNetworkMessage(msg)` from `main.go`, restricted to its effect
on the game state.  Log statements, redraw flagging, the outbound error
message on an invalid remote move and the quit-channel close are
side effects with no bearing on the state fields and are dropped. -/
def handleNetworkMessage (gs : GameState) (msg : Message) : GameState :=
  let senderName := ("Player " ++ toString msg.player)
  if gs.gameOver then
    if msg.type == MsgTypeChat then
      { gs with chatHistory := AddChatMessage gs.chatHistory senderName msg.content }
    else
      gs
  else
    if msg.type == MsgTypeMove then
      if msg.player != gs.playerID && gs.currentPlayer == msg.player then
        let pr := placePieceInternal gs.board msg.x msg.y msg.player
        if pr.fst then
          let b := pr.snd
          if checkWinLogic b msg.player then
            { gs with board := b, winner := msg.player, gameOver := true }
          else if checkDrawLogic b then
            { gs with board := b, winner := 3, gameOver := true }
          else
            { gs with board := b, currentPlayer := gs.playerID }
        else
          gs
      else
        gs
    else if msg.type == MsgTypeChat then
      if msg.player != gs.playerID then
        { gs with chatHistory := AddChatMessage gs.chatHistory senderName msg.content }
      else
        gs
    else if msg.type == MsgTypeState then
      { gs with currentPlayer := msg.turn, winner := msg.winner,
                gameOver := msg.winner != 0 }
    else if msg.type == MsgTypeAssign then
      if gs.playerID == 0 then
        { gs with playerID := msg.player, currentPlayer := Player1 }
      else
        gs
    else
      gs

/-- Result of the move critical section of `handleUserInput` (the local
variables `validMove`, `win`, `draw` of the Go function together with
the state after the critical section). -/
structure MoveOutcome where
  state : GameState
  validMove : Bool
  win : Bool
  draw : Bool

/-- The critical section of `handleUserInput` for a parsed move `(x, y)`
(lines guarded by `gs.mu.Lock()` around `placePieceInternal`): re-check
the turn, place the piece, evaluate win then draw, and update
`winner` / `gameOver` / `currentPlayer` accordingly. -/
def applyLocalMove (gs : GameState) (x y myPlayerID : Int) : MoveOutcome :=
  if gs.currentPlayer == myPlayerID && !gs.gameOver then
    let pr := placePieceInternal gs.board x y myPlayerID
    if pr.fst then
      let b := pr.snd
      let win := checkWinLogic b myPlayerID
      let draw := checkDrawLogic b
      if win then
        ⟨{ gs with board := b, winner := myPlayerID, gameOver := true }, true, win, draw⟩
      else if draw then
        ⟨{ gs with board := b, winner := 3, gameOver := true }, true, win, draw⟩
      else
        ⟨{ gs with board := b, currentPlayer := 3 - myPlayerID }, true, win, draw⟩
    else
      ⟨gs, false, false, false⟩
  else
    ⟨gs, false, false, false⟩

/-- Go `strings.HasPrefix(s, pre)`. -/
def hasPrefixGo (s pre : String) : Bool :=
  pre.data.isPrefixOf s.data

/-- Go `strings.Split(s, ",")` on the underlying character list: split at
every comma, keeping empty fragments (`Split("") = [""]`). -/
def splitOnComma (cs : List Char) : List (List Char) :=
  match cs with
  | [] => [[]]
  | c :: rest =>
    let r := splitOnComma rest
    if c == (',') then
      [] :: r
    else
      match r with
      | [] => [[c]]
      | g :: gsTail => (c :: g) :: gsTail

/-- Go `strings.TrimSpace` (restricted to the whitespace class of
`Char.isWhitespace`): drop leading and trailing whitespace. -/
def trimSpaceGo (cs : List Char) : List Char :=
  ((cs.dropWhile Char.isWhitespace).reverse.dropWhile Char.isWhitespace).reverse

/-- Digit accumulator for `Atoi`: `none` as soon as a non-digit occurs. -/
def digitsToNat (cs : List Char) : Option Nat :=
  cs.foldl
    (fun acc c =>
      match acc with
      | none => none
      | some n => if c.isDigit then some (n * 10 + (c.toNat - 48)) else none)
    (some 0)

/-- Go `strconv.Atoi`: an optional sign followed by at least one decimal
digit (the Go range check on 64-bit overflow is irrelevant at the board
scale and not modelled). -/
def Atoi (cs : List Char) : Option Int :=
  match cs with
  | [] => none
  | ('-') :: rest =>
    if rest.isEmpty then none else (digitsToNat rest).map (fun n => -(n : Int))
  | ('+') :: rest =>
    if rest.isEmpty then none else (digitsToNat rest).map (fun n => (n : Int))
  | _ => (digitsToNat cs).map (fun n => (n : Int))

/-- Go method `handleUserInput(input)` from `main.go`, restricted to its effect on
the game state plus the list of outbound messages handed to
`go gs.SendMessage(...)` (in launch order).  Console prints, redraw
flagging and the quit-channel close are dropped. -/
def handleUserInput (gs : GameState) (input : String) : GameState × List Message :=
  let myPlayerID := gs.playerID
  let myTurn := (myPlayerID != 0) && (gs.currentPlayer == myPlayerID) && !gs.gameOver
  if myPlayerID == 0 then
    (gs, [])
  else if gs.gameOver then
    (gs, [])
  else if !myTurn then
    (gs, [])
  else if hasPrefixGo input ("/c ") then
    let chatMsg := String.mk (input.data.drop 3)
    if chatMsg != "" then
      let hist := AddChatMessage gs.chatHistory
        ("You (Player " ++ toString myPlayerID ++ ")") chatMsg
      ({ gs with chatHistory := hist },
       [{ type := MsgTypeChat, player := myPlayerID, content := chatMsg }])
    else
      (gs, [])
  else
    let parts := splitOnComma input.data
    if parts.length == 2 then
      match Atoi (trimSpaceGo (parts.getD 0 [])), Atoi (trimSpaceGo (parts.getD 1 [])) with
      | some x, some y =>
        let r := applyLocalMove gs x y myPlayerID
        if r.validMove then
          let moveMsg : Message := { type := MsgTypeMove, player := myPlayerID, x := x, y := y }
          if r.win || r.draw then
            (r.state,
             [{ type := MsgTypeState, winner := r.state.winner, turn := 0 }, moveMsg])
          else
            (r.state, [moveMsg])
        else
          (r.state, [])
      | _, _ => (gs, [])
    else
      (gs, [])

/-- An event consumed by the main loop: an inbound network message or a
line of local input (the periodic tick carries no state change). -/
inductive GameEvent where
  | net (msg : Message)
  | input (line : String)

/-- One step of the main event loop of `main.go`: dispatch to the
matching handler. -/
def stepEvent (gs : GameState) (e : GameEvent) : GameState :=
  match e with
  | GameEvent.net msg => handleNetworkMessage gs msg
  | GameEvent.input line => (handleUserInput gs line).fst

/-- The game state built in `main()` before the event loop starts. -/
def initialState : GameState :=
  { board := NewBoard BoardSize, currentPlayer := 0, winner := 0,
    gameOver := false, playerID := 0, chatHistory := [] }

/-! ## Specification-side predicates -/

/-- Written from the spec's words for the refinement claim about
`checkWinLogic`: the board contains a run of five consecutive cells
equal to `p` along a row, a column, or one of the two diagonals, all
five cells lying inside the 15×15 grid. -/
def hasFiveRun (board : Board) (p : Int) : Prop :=
  ∃ i j : Nat,
    (i < 15 ∧ j + 4 < 15 ∧
      getCell board i j = p ∧ getCell board i (j+1) = p ∧ getCell board i (j+2) = p ∧
      getCell board i (j+3) = p ∧ getCell board i (j+4) = p)
    ∨ (i + 4 < 15 ∧ j < 15 ∧
      getCell board i j = p ∧ getCell board (i+1) j = p ∧ getCell board (i+2) j = p ∧
      getCell board (i+3) j = p ∧ getCell board (i+4) j = p)
    ∨ (i + 4 < 15 ∧ j + 4 < 15 ∧
      getCell board i j = p ∧ getCell board (i+1) (j+1) = p ∧ getCell board (i+2) (j+2) = p ∧
      getCell board (i+3) (j+3) = p ∧ getCell board (i+4) (j+4) = p)
    ∨ (i + 4 < 15 ∧ 4 ≤ j ∧ j < 15 ∧
      getCell board i j = p ∧ getCell board (i+1) (j-1) = p ∧ getCell board (i+2) (j-2) = p ∧
      getCell board (i+3) (j-3) = p ∧ getCell board (i+4) (j-4) = p)

/-- A board is a well-formed 15×15 grid (as every board produced by
`NewBoard(BoardSize)` and mutated by `placePieceInternal` is). -/
def BoardWF (b : Board) : Prop :=
  b.length = 15 ∧ ∀ r ∈ b, r.length = 15

/-- The invariant of the spec: `gameOver == true` iff `winner != none`. -/
def WinnerInv (gs : GameState) : Prop :=
  gs.gameOver = true ↔ gs.winner ≠ 0

/-- Well-formedness of an event stream: inbound `Move` messages carry a
nonzero sender field.  (Both real peers only ever send their own
assigned id, 1 or 2.) -/
def MoveSenderNonzero : GameEvent → Prop
  | GameEvent.net msg => msg.type = MsgTypeMove → msg.player ≠ 0
  | GameEvent.input _ => True

/-! ## Helper lemmas -/

theorem listGetD_set_self {α : Type} (l : List α) (i : Nat) (a d : α)
    (h : i < l.length) : (l.set i a).getD i d = a := by
  induction l generalizing i with
  | nil => simp at h
  | cons x xs ih =>
    cases i with
    | zero => simp
    | succ n =>
      simp only [List.set_cons_succ, List.getD_cons_succ]
      exact ih n (by simpa using h)

theorem getCell_setCell_self (b : Board) (i j : Nat) (v : Int)
    (hi : i < b.length) (hj : j < (b.getD i []).length) :
    getCell (setCell b i j v) i j = v := by
  unfold getCell setCell
  rw [listGetD_set_self b i _ [] hi]
  exact listGetD_set_self _ j v EmptyCell hj

theorem placePieceInternal_valid (b : Board) (x y p : Int)
    (h : (placePieceInternal b x y p).fst = true) :
    0 ≤ x ∧ x < 15 ∧ 0 ≤ y ∧ y < 15 ∧ getCell b x.toNat y.toNat = EmptyCell ∧
      (placePieceInternal b x y p).snd = setCell b x.toNat y.toNat p := by
  unfold placePieceInternal at *
  split at h
  · simp at h
  · next hcond =>
    push_neg at hcond
    simp only [BoardSize] at hcond
    refine ⟨by omega, by omega, by omega, by omega, hcond.2.2.2.2, ?_⟩
    rw [if_neg]
    push_neg
    simp only [BoardSize]
    omega

theorem winFrom_eq_true_iff (board : Board) (p : Int) (s i j : Nat) :
    winFrom board p s i j = true ↔
      getCell board i j = p ∧
        ((j + 4 < s ∧ getCell board i (j+1) = p ∧ getCell board i (j+2) = p ∧
            getCell board i (j+3) = p ∧ getCell board i (j+4) = p)
        ∨ (i + 4 < s ∧ getCell board (i+1) j = p ∧ getCell board (i+2) j = p ∧
            getCell board (i+3) j = p ∧ getCell board (i+4) j = p)
        ∨ (i + 4 < s ∧ j + 4 < s ∧ getCell board (i+1) (j+1) = p ∧
            getCell board (i+2) (j+2) = p ∧ getCell board (i+3) (j+3) = p ∧
            getCell board (i+4) (j+4) = p)
        ∨ (i + 4 < s ∧ 4 ≤ j ∧ getCell board (i+1) (j-1) = p ∧
            getCell board (i+2) (j-2) = p ∧ getCell board (i+3) (j-3) = p ∧
            getCell board (i+4) (j-4) = p)) := by
  simp only [winFrom, Bool.and_eq_true, Bool.or_eq_true, decide_eq_true_eq, beq_iff_eq,
    and_assoc, or_assoc]

theorem checkWinLogic_eq_true_iff (board : Board) (p : Int) :
    checkWinLogic board p = true ↔
      ∃ i, i < board.length ∧ ∃ j, j < board.length ∧
        winFrom board p board.length i j = true := by
  simp only [checkWinLogic, List.any_eq_true, List.mem_range]

/-! ## Claims -/

/-- C10: `checkWinLogic` does not treat the `Empty` value specially:
on the freshly created all-empty 15×15 board, called with
`player = 0 = Empty`, it returns `true` (five consecutive `Empty`
cells count as a run), so the win check is only meaningful for the
player values 1 and 2. -/
theorem checkWinLogic_empty_board_player_zero :
    checkWinLogic (NewBoard BoardSize) EmptyCell = true := by
  decide

/-- C1: for every 15×15 board and every player `p ∈ {1, 2}`,
`checkWinLogic board p` returns `true` iff the board contains a run of
five consecutive cells equal to `p` along a row, a column or one of the
two diagonals; in particular it returns `false` on the all-empty
board. -/
theorem checkWinLogic_iff_hasFiveRun (board : Board) (p : Int)
    (hlen : board.length = 15) (_hrows : ∀ r ∈ board, r.length = 15)
    (hp : p = Player1 ∨ p = Player2) :
    (checkWinLogic board p = true ↔ hasFiveRun board p) ∧
      checkWinLogic (NewBoard BoardSize) p = false := by
  constructor
  · rw [checkWinLogic_eq_true_iff, hlen]
    constructor
    · rintro ⟨i, hi, j, hj, hw⟩
      rw [winFrom_eq_true_iff] at hw
      obtain ⟨hc, hdir⟩ := hw
      refine ⟨i, j, ?_⟩
      rcases hdir with h | h | h | h
      · exact Or.inl ⟨hi, h.1, hc, h.2.1, h.2.2.1, h.2.2.2.1, h.2.2.2.2⟩
      · exact Or.inr (Or.inl ⟨h.1, hj, hc, h.2.1, h.2.2.1, h.2.2.2.1, h.2.2.2.2⟩)
      · exact Or.inr (Or.inr (Or.inl
          ⟨h.1, h.2.1, hc, h.2.2.1, h.2.2.2.1, h.2.2.2.2.1, h.2.2.2.2.2⟩))
      · exact Or.inr (Or.inr (Or.inr
          ⟨h.1, h.2.1, hj, hc, h.2.2.1, h.2.2.2.1, h.2.2.2.2.1, h.2.2.2.2.2⟩))
    · rintro ⟨i, j, hcase⟩
      rcases hcase with h | h | h | h
      · refine ⟨i, h.1, j, by omega, ?_⟩
        rw [winFrom_eq_true_iff]
        exact ⟨h.2.2.1, Or.inl ⟨h.2.1, h.2.2.2.1, h.2.2.2.2.1, h.2.2.2.2.2.1, h.2.2.2.2.2.2⟩⟩
      · refine ⟨i, by omega, j, h.2.1, ?_⟩
        rw [winFrom_eq_true_iff]
        exact ⟨h.2.2.1, Or.inr (Or.inl
          ⟨h.1, h.2.2.2.1, h.2.2.2.2.1, h.2.2.2.2.2.1, h.2.2.2.2.2.2⟩)⟩
      · refine ⟨i, by omega, j, by omega, ?_⟩
        rw [winFrom_eq_true_iff]
        exact ⟨h.2.2.1, Or.inr (Or.inr (Or.inl
          ⟨h.1, h.2.1, h.2.2.2.1, h.2.2.2.2.1, h.2.2.2.2.2.1, h.2.2.2.2.2.2⟩))⟩
      · refine ⟨i, by omega, j, h.2.2.1, ?_⟩
        rw [winFrom_eq_true_iff]
        exact ⟨h.2.2.2.1, Or.inr (Or.inr (Or.inr
          ⟨h.1, h.2.1, h.2.2.2.2.1, h.2.2.2.2.2.1, h.2.2.2.2.2.2.1, h.2.2.2.2.2.2.2⟩))⟩
  · rcases hp with hp | hp <;> subst hp <;> decide

/-- Witness for C1 at a concrete input: the all-empty board is a
well-formed 15×15 board and both conjuncts hold for player 1 there. -/
theorem checkWinLogic_iff_hasFiveRun_witness :
    (checkWinLogic (NewBoard 15) Player1 = true ↔ hasFiveRun (NewBoard 15) Player1) ∧
      checkWinLogic (NewBoard BoardSize) Player1 = false :=
  checkWinLogic_iff_hasFiveRun (NewBoard 15) Player1 (by decide)
    (by decide) (Or.inl rfl)

/-- C2: win is checked before draw on every move.  For any move by
player `p` that both completes a run of five for `p` and fills the last
`Empty` cell, the local-move critical section of `handleUserInput` and
the move branch of `handleNetworkMessage` both set `winner = p` and
`gameOver = true`, never `winner = Draw (3)`. -/
theorem win_checked_before_draw (gs : GameState) (p x y : Int) (msg : Message)
    (hp : p = Player1 ∨ p = Player2) :
    (gs.currentPlayer = p → gs.gameOver = false →
      (placePieceInternal gs.board x y p).fst = true →
      checkWinLogic (placePieceInternal gs.board x y p).snd p = true →
      checkDrawLogic (placePieceInternal gs.board x y p).snd = true →
      ((applyLocalMove gs x y p).state.winner = p ∧
       (applyLocalMove gs x y p).state.gameOver = true ∧
       (applyLocalMove gs x y p).state.winner ≠ 3)) ∧
    (msg.type = MsgTypeMove → msg.player = p → msg.player ≠ gs.playerID →
      gs.currentPlayer = msg.player → gs.gameOver = false →
      (placePieceInternal gs.board msg.x msg.y msg.player).fst = true →
      checkWinLogic (placePieceInternal gs.board msg.x msg.y msg.player).snd msg.player = true →
      checkDrawLogic (placePieceInternal gs.board msg.x msg.y msg.player).snd = true →
      ((handleNetworkMessage gs msg).winner = p ∧
       (handleNetworkMessage gs msg).gameOver = true ∧
       (handleNetworkMessage gs msg).winner ≠ 3)) := by
  have hp3 : p ≠ 3 := by rcases hp with hp | hp <;> simp [hp, Player1, Player2]
  constructor
  · intro hturn hgo hv hw _hd
    unfold applyLocalMove
    simp [hturn, hgo, hv, hw, hp3]
  · intro hty hpl hne hturn hgo hv hw _hd
    subst hpl
    simp only [handleNetworkMessage, hty, MsgTypeMove, MsgTypeChat, hgo]
    have hc : (msg.player != gs.playerID && gs.currentPlayer == msg.player) = true := by
      simp [hne, hturn]
    simp [hc, hv, hw, hp3]

/-- A 15×15 board whose only `Empty` cell is at `(0, 4)`, with four
stones of player 1 to its left: placing player 1 there simultaneously
completes a horizontal five and fills the board. -/
def almostFullBoard : Board :=
  ([1, 1, 1, 1, 0] ++ List.replicate 10 2) :: List.replicate 14 (List.replicate 15 (2 : Int))

/-- The game state used to witness C2: player 1 about to play `(0, 4)`
on `almostFullBoard` (locally, and as seen from the peer). -/
def almostWonState : GameState :=
  { board := almostFullBoard, currentPlayer := 1, winner := 0,
    gameOver := false, playerID := 2, chatHistory := [] }

/-- Witness for C2 at a concrete input: on `almostWonState`, the move
`(0, 4)` by player 1 both wins and fills the board, and both handlers
record a player-1 win, not a draw. -/
theorem win_checked_before_draw_witness :
    ((applyLocalMove almostWonState 0 4 1).state.winner = 1 ∧
     (applyLocalMove almostWonState 0 4 1).state.gameOver = true ∧
     (applyLocalMove almostWonState 0 4 1).state.winner ≠ 3) ∧
    ((handleNetworkMessage almostWonState
        { type := MsgTypeMove, player := 1, x := 0, y := 4 }).winner = 1 ∧
     (handleNetworkMessage almostWonState
        { type := MsgTypeMove, player := 1, x := 0, y := 4 }).gameOver = true ∧
     (handleNetworkMessage almostWonState
        { type := MsgTypeMove, player := 1, x := 0, y := 4 }).winner ≠ 3) := by
  have h := win_checked_before_draw almostWonState 1 0 4
    { type := MsgTypeMove, player := 1, x := 0, y := 4 } (Or.inl rfl)
  exact ⟨h.1 (by decide) (by decide) (by decide) (by decide) (by decide),
         h.2 rfl rfl (by decide) (by decide) (by decide) (by decide) (by decide) (by decide)⟩

/-- C3: `placePieceInternal` on an occupied or out-of-range cell returns
`false` and leaves every board cell unchanged, and the calling handlers
(the move critical section of `handleUserInput`, and
`handleNetworkMessage` for a move at that cell) leave the whole game
state — in particular `currentPlayer`, `winner` and `gameOver` —
unchanged. -/
theorem invalid_move_rejected_frame (gs : GameState) (x y p : Int) (msg : Message)
    (hbad : x < 0 ∨ (BoardSize : Int) ≤ x ∨ y < 0 ∨ (BoardSize : Int) ≤ y ∨
            getCell gs.board x.toNat y.toNat ≠ EmptyCell) :
    placePieceInternal gs.board x y p = (false, gs.board) ∧
    (applyLocalMove gs x y p).state = gs ∧
    (msg.type = MsgTypeMove → msg.x = x → msg.y = y → handleNetworkMessage gs msg = gs) := by
  have hplace : placePieceInternal gs.board x y p = (false, gs.board) := by
    unfold placePieceInternal
    rw [if_pos hbad]
  refine ⟨hplace, ?_, ?_⟩
  · unfold applyLocalMove
    rw [hplace]
    simp
  · intro hty hx hy
    subst hx; subst hy
    have hplace2 : placePieceInternal gs.board msg.x msg.y msg.player = (false, gs.board) := by
      unfold placePieceInternal
      rw [if_pos hbad]
    simp only [handleNetworkMessage, hty, MsgTypeMove, MsgTypeChat]
    cases hgo : gs.gameOver with
    | true => simp
    | false => simp [hplace2]

/-- Witness for C3 at a concrete input: the out-of-range move `(-1, 0)`
is rejected on the initial state and mutates nothing, through
`placePieceInternal` and through both handlers. -/
theorem invalid_move_rejected_frame_witness :
    placePieceInternal initialState.board (-1) 0 1 = (false, initialState.board) ∧
    (applyLocalMove initialState (-1) 0 1).state = initialState ∧
    handleNetworkMessage initialState { type := MsgTypeMove, player := 1, x := -1, y := 0 }
      = initialState := by
  have h := invalid_move_rejected_frame initialState (-1) 0 1
    { type := MsgTypeMove, player := 1, x := -1, y := 0 } (by decide)
  exact ⟨h.1, h.2.1, h.2.2 rfl rfl rfl⟩

/-- C4: an inbound `Move` message whose sender differs from the recorded
`currentPlayer`, or which is a self-echo (sender equal to the local
`playerID`), is discarded: `handleNetworkMessage` returns the state
unchanged — board, `currentPlayer`, `winner` and `gameOver` included. -/
theorem out_of_turn_move_discarded (gs : GameState) (msg : Message)
    (hty : msg.type = MsgTypeMove)
    (h : msg.player ≠ gs.currentPlayer ∨ msg.player = gs.playerID) :
    handleNetworkMessage gs msg = gs := by
  simp only [handleNetworkMessage, hty, MsgTypeMove, MsgTypeChat]
  cases hgo : gs.gameOver with
  | true => simp
  | false =>
    have hc : (msg.player != gs.playerID && gs.currentPlayer == msg.player) = false := by
      rcases h with h | h
      · simp [beq_eq_false_iff_ne.mpr (Ne.symm h)]
      · simp [h]
    simp [hc]

/-- Witness for C4 at a concrete input: a move by player 2 while it is
player 1's turn is discarded without any state change. -/
theorem out_of_turn_move_discarded_witness :
    handleNetworkMessage
      { board := NewBoard BoardSize, currentPlayer := 1, winner := 0,
        gameOver := false, playerID := 1, chatHistory := [] }
      { type := MsgTypeMove, player := 2, x := 3, y := 3 }
    = { board := NewBoard BoardSize, currentPlayer := 1, winner := 0,
        gameOver := false, playerID := 1, chatHistory := [] } :=
  out_of_turn_move_discarded _ _ rfl (Or.inl (by decide))

/-- C5: after any successful move application that does not end the
game, `currentPlayer` is exactly the other player: the local critical
section sets `currentPlayer = 3 - localPlayerID`, and
`handleNetworkMessage`, having accepted an opponent's move, sets
`currentPlayer = localPlayerID` — in both cases not the mover. -/
theorem successful_move_alternates_turn (gs : GameState) (p x y : Int) (msg : Message)
    (hp : p = Player1 ∨ p = Player2) :
    (gs.currentPlayer = p → gs.gameOver = false →
      (placePieceInternal gs.board x y p).fst = true →
      checkWinLogic (placePieceInternal gs.board x y p).snd p = false →
      checkDrawLogic (placePieceInternal gs.board x y p).snd = false →
      ((applyLocalMove gs x y p).state.currentPlayer = 3 - p ∧
       (applyLocalMove gs x y p).state.currentPlayer ≠ p)) ∧
    (msg.type = MsgTypeMove → msg.player ≠ gs.playerID →
      gs.currentPlayer = msg.player → gs.gameOver = false →
      (placePieceInternal gs.board msg.x msg.y msg.player).fst = true →
      checkWinLogic (placePieceInternal gs.board msg.x msg.y msg.player).snd msg.player = false →
      checkDrawLogic (placePieceInternal gs.board msg.x msg.y msg.player).snd = false →
      ((handleNetworkMessage gs msg).currentPlayer = gs.playerID ∧
       (handleNetworkMessage gs msg).currentPlayer ≠ msg.player)) := by
  have hovr : 3 - p ≠ p := by rcases hp with hp | hp <;> simp [hp, Player1, Player2]
  constructor
  · intro hturn hgo hv hw hd
    unfold applyLocalMove
    simp [hturn, hgo, hv, hw, hd, hovr]
  · intro hty hne hturn hgo hv hw hd
    simp only [handleNetworkMessage, hty, MsgTypeMove, MsgTypeChat, hgo]
    have hc : (msg.player != gs.playerID && gs.currentPlayer == msg.player) = true := by
      simp [hne, hturn]
    simp [hc, hv, hw, hd]
    exact fun hcontra => hne hcontra.symm

/-- Witness for C5 at a concrete input: player 1 plays `(7, 7)` on an
empty board (locally, and as an inbound move seen by player 2); the
game continues and the turn passes to player 2 both times. -/
theorem successful_move_alternates_turn_witness :
    ((applyLocalMove
        { board := NewBoard BoardSize, currentPlayer := 1, winner := 0,
          gameOver := false, playerID := 1, chatHistory := [] } 7 7 1).state.currentPlayer = 3 - 1 ∧
     (applyLocalMove
        { board := NewBoard BoardSize, currentPlayer := 1, winner := 0,
          gameOver := false, playerID := 1, chatHistory := [] } 7 7 1).state.currentPlayer ≠ 1) ∧
    ((handleNetworkMessage
        { board := NewBoard BoardSize, currentPlayer := 1, winner := 0,
          gameOver := false, playerID := 2, chatHistory := [] }
        { type := MsgTypeMove, player := 1, x := 7, y := 7 }).currentPlayer = 2 ∧
     (handleNetworkMessage
        { board := NewBoard BoardSize, currentPlayer := 1, winner := 0,
          gameOver := false, playerID := 2, chatHistory := [] }
        { type := MsgTypeMove, player := 1, x := 7, y := 7 }).currentPlayer ≠ 1) := by
  have h1 := successful_move_alternates_turn
    { board := NewBoard BoardSize, currentPlayer := 1, winner := 0,
      gameOver := false, playerID := 1, chatHistory := [] } 1 7 7
    { type := MsgTypeMove, player := 1, x := 7, y := 7 } (Or.inl rfl)
  have h2 := successful_move_alternates_turn
    { board := NewBoard BoardSize, currentPlayer := 1, winner := 0,
      gameOver := false, playerID := 2, chatHistory := [] } 1 7 7
    { type := MsgTypeMove, player := 1, x := 7, y := 7 } (Or.inl rfl)
  exact ⟨h1.1 (by decide) (by decide) (by decide) (by decide) (by decide),
         h2.2 rfl (by decide) (by decide) (by decide) (by decide) (by decide) (by decide)⟩

/-- C8: an inbound `State` (StateSync) message processed while the game
is not over overwrites `currentPlayer` with the message's `Turn`,
`winner` with its `Winner`, sets `gameOver` to `Winner != 0`, and
leaves every cell of the board unchanged. -/
theorem state_sync_overwrite (gs : GameState) (msg : Message)
    (hgo : gs.gameOver = false) (hty : msg.type = MsgTypeState) :
    (handleNetworkMessage gs msg).currentPlayer = msg.turn ∧
    (handleNetworkMessage gs msg).winner = msg.winner ∧
    (handleNetworkMessage gs msg).gameOver = (msg.winner != 0) ∧
    (handleNetworkMessage gs msg).board = gs.board := by
  simp [handleNetworkMessage, hgo, hty, MsgTypeState, MsgTypeMove, MsgTypeChat, MsgTypeAssign]

/-- Witness for C8 at a concrete input: a StateSync with `Turn = 2`,
`Winner = 1` on the initial state. -/
theorem state_sync_overwrite_witness :
    (handleNetworkMessage initialState
      { type := MsgTypeState, turn := 2, winner := 1 }).currentPlayer = 2 ∧
    (handleNetworkMessage initialState
      { type := MsgTypeState, turn := 2, winner := 1 }).winner = 1 ∧
    (handleNetworkMessage initialState
      { type := MsgTypeState, turn := 2, winner := 1 }).gameOver = ((1 : Int) != 0) ∧
    (handleNetworkMessage initialState
      { type := MsgTypeState, turn := 2, winner := 1 }).board = initialState.board :=
  state_sync_overwrite initialState { type := MsgTypeState, turn := 2, winner := 1 } rfl rfl

/-- The move branch of `handleNetworkMessage` under its acceptance
conditions (opponent sender, sender on turn, game running, placement
valid): the handler reduces to the win / draw / continue three-way
update. -/
theorem handleNetworkMessage_move_accept (gs : GameState) (msg : Message)
    (hty : msg.type = MsgTypeMove) (hne : msg.player ≠ gs.playerID)
    (hturn : gs.currentPlayer = msg.player) (hgo : gs.gameOver = false)
    (hok : (placePieceInternal gs.board msg.x msg.y msg.player).fst = true) :
    handleNetworkMessage gs msg =
      (if checkWinLogic (placePieceInternal gs.board msg.x msg.y msg.player).snd msg.player then
        { gs with board := (placePieceInternal gs.board msg.x msg.y msg.player).snd,
                  winner := msg.player, gameOver := true }
      else if checkDrawLogic (placePieceInternal gs.board msg.x msg.y msg.player).snd then
        { gs with board := (placePieceInternal gs.board msg.x msg.y msg.player).snd,
                  winner := 3, gameOver := true }
      else
        { gs with board := (placePieceInternal gs.board msg.x msg.y msg.player).snd,
                  currentPlayer := gs.playerID }) := by
  simp only [handleNetworkMessage, hty, MsgTypeMove, MsgTypeChat, hgo]
  have hc : (msg.player != gs.playerID && gs.currentPlayer == msg.player) = true := by
    simp [hne, hturn]
  simp [hc, hok]

/-- C7 (amended): a `Move` message with nonzero sender that
`handleNetworkMessage` has applied successfully occupies its cell, so
replaying the identical message afterwards finds the placement invalid
(`placePieceInternal` returns `false` on the new board) and a second
delivery leaves every board cell unchanged.  (Nonzero sender is
necessary: a player-0 move writes the `Empty` value and its cell stays
free — see the counterexample.) -/
theorem move_replay_rejected (gs : GameState) (msg : Message)
    (hwf : BoardWF gs.board)
    (hty : msg.type = MsgTypeMove) (hne : msg.player ≠ gs.playerID)
    (hturn : gs.currentPlayer = msg.player) (hgo : gs.gameOver = false)
    (hok : (placePieceInternal gs.board msg.x msg.y msg.player).fst = true)
    (hnz : msg.player ≠ 0) :
    (placePieceInternal (handleNetworkMessage gs msg).board msg.x msg.y msg.player).fst = false ∧
    (handleNetworkMessage (handleNetworkMessage gs msg) msg).board
      = (handleNetworkMessage gs msg).board := by
  obtain ⟨hx0, hx15, hy0, hy15, hcell, hsnd⟩ :=
    placePieceInternal_valid gs.board msg.x msg.y msg.player hok
  have hmx : msg.x.toNat < gs.board.length := by rw [hwf.1]; omega
  have hrowlen : (gs.board.getD msg.x.toNat []).length = 15 := by
    have hmem : gs.board.getD msg.x.toNat [] ∈ gs.board := by
      rw [List.getD_eq_getElem gs.board [] hmx]
      exact List.getElem_mem hmx
    exact hwf.2 _ hmem
  have hget : getCell (placePieceInternal gs.board msg.x msg.y msg.player).snd
      msg.x.toNat msg.y.toNat = msg.player := by
    rw [hsnd]
    exact getCell_setCell_self gs.board msg.x.toNat msg.y.toNat msg.player hmx
      (by rw [hrowlen]; omega)
  have hb1 : (handleNetworkMessage gs msg).board
      = (placePieceInternal gs.board msg.x msg.y msg.player).snd := by
    rw [handleNetworkMessage_move_accept gs msg hty hne hturn hgo hok]
    by_cases hw : checkWinLogic (placePieceInternal gs.board msg.x msg.y msg.player).snd
        msg.player = true
    · simp [hw]
    · by_cases hd : checkDrawLogic (placePieceInternal gs.board msg.x msg.y msg.player).snd = true
      · simp [hw, hd]
      · simp [hw, hd]
  constructor
  · unfold placePieceInternal
    rw [if_pos]
    · exact Or.inr (Or.inr (Or.inr (Or.inr (by rw [hb1, hget]; exact hnz))))
  · rw [handleNetworkMessage_move_accept gs msg hty hne hturn hgo hok]
    by_cases hw : checkWinLogic (placePieceInternal gs.board msg.x msg.y msg.player).snd
        msg.player = true
    · simp only [hw, if_true]
      simp [handleNetworkMessage, hty, MsgTypeMove, MsgTypeChat]
    · by_cases hd : checkDrawLogic (placePieceInternal gs.board msg.x msg.y msg.player).snd = true
      · simp only [hw, hd, if_false, if_true]
        simp [handleNetworkMessage, hty, MsgTypeMove, MsgTypeChat]
      · simp only [hw, hd, if_false]
        simp only [handleNetworkMessage, hty, MsgTypeMove, MsgTypeChat, hgo]
        have hc2 : (msg.player != gs.playerID && gs.playerID == msg.player) = false := by
          simp [beq_eq_false_iff_ne.mpr (Ne.symm hne)]
        simp [hc2]

/-- Counterexample for C7 as stated (without the nonzero-sender
restriction): starting from the initial state, the messages
`Assign(player=2)` then `State(turn=0, winner=0)` reach a state where a
`Move` by player 0 at `(0,0)` is applied successfully — yet replaying
that identical message still finds the cell placeable
(`placePieceInternal` returns `true` again), not `InvalidMove`, because
placing player 0 wrote the `Empty` value. -/
theorem move_replay_rejected_counterexample :
    ((List.foldl stepEvent initialState
        [GameEvent.net { type := MsgTypeAssign, player := 2 },
         GameEvent.net { type := MsgTypeState, turn := 0, winner := 0 }]).currentPlayer = 0 ∧
     (List.foldl stepEvent initialState
        [GameEvent.net { type := MsgTypeAssign, player := 2 },
         GameEvent.net { type := MsgTypeState, turn := 0, winner := 0 }]).playerID = 2 ∧
     (List.foldl stepEvent initialState
        [GameEvent.net { type := MsgTypeAssign, player := 2 },
         GameEvent.net { type := MsgTypeState, turn := 0, winner := 0 }]).gameOver = false) ∧
    (placePieceInternal
      (List.foldl stepEvent initialState
        [GameEvent.net { type := MsgTypeAssign, player := 2 },
         GameEvent.net { type := MsgTypeState, turn := 0, winner := 0 }]).board 0 0 0).fst = true ∧
    (placePieceInternal
      (handleNetworkMessage
        (List.foldl stepEvent initialState
          [GameEvent.net { type := MsgTypeAssign, player := 2 },
           GameEvent.net { type := MsgTypeState, turn := 0, winner := 0 }])
        { type := MsgTypeMove, player := 0, x := 0, y := 0 }).board 0 0 0).fst = true := by
  decide

/-- Witness for C7 at a concrete input: player 2's move at `(0,0)` on
the empty board is applied; its replay is an invalid placement and a
second delivery changes no board cell. -/
theorem move_replay_rejected_witness :
    (placePieceInternal
      (handleNetworkMessage
        { board := NewBoard BoardSize, currentPlayer := 2, winner := 0,
          gameOver := false, playerID := 1, chatHistory := [] }
        { type := MsgTypeMove, player := 2, x := 0, y := 0 }).board 0 0 2).fst = false ∧
    (handleNetworkMessage
      (handleNetworkMessage
        { board := NewBoard BoardSize, currentPlayer := 2, winner := 0,
          gameOver := false, playerID := 1, chatHistory := [] }
        { type := MsgTypeMove, player := 2, x := 0, y := 0 })
      { type := MsgTypeMove, player := 2, x := 0, y := 0 }).board
    = (handleNetworkMessage
        { board := NewBoard BoardSize, currentPlayer := 2, winner := 0,
          gameOver := false, playerID := 1, chatHistory := [] }
        { type := MsgTypeMove, player := 2, x := 0, y := 0 }).board :=
  move_replay_rejected
    { board := NewBoard BoardSize, currentPlayer := 2, winner := 0,
      gameOver := false, playerID := 1, chatHistory := [] }
    { type := MsgTypeMove, player := 2, x := 0, y := 0 }
    ⟨by decide, by decide⟩ rfl (by decide) rfl rfl (by decide) (by decide)

/-- Preservation: `handleNetworkMessage` keeps the winner/game-over invariant, as
long as inbound `Move` messages carry a nonzero sender. -/
theorem winnerInv_handleNetworkMessage (gs : GameState) (msg : Message)
    (hwf : msg.type = MsgTypeMove → msg.player ≠ 0) (hinv : WinnerInv gs) :
    WinnerInv (handleNetworkMessage gs msg) := by
  unfold WinnerInv at *
  unfold handleNetworkMessage
  cases hgo : gs.gameOver with
  | true =>
    have hwne : gs.winner ≠ 0 := hinv.mp hgo
    cases hch : (msg.type == MsgTypeChat) <;> simp [hch, hgo, hwne]
  | false =>
    rw [hgo] at hinv
    have hw0 : gs.winner = 0 := by simpa using hinv
    simp only [Bool.false_eq_true, if_false]
    cases hmv : (msg.type == MsgTypeMove) with
    | true =>
      simp only [hmv, if_true]
      cases hc : (msg.player != gs.playerID && gs.currentPlayer == msg.player) with
      | false => simp [hc, hgo, hw0]
      | true =>
        simp only [hc, if_true]
        cases hv : (placePieceInternal gs.board msg.x msg.y msg.player).fst with
        | false => simp [hv, hgo, hw0]
        | true =>
          simp only [hv, if_true]
          cases hwin : checkWinLogic (placePieceInternal gs.board msg.x msg.y msg.player).snd
              msg.player with
          | true =>
            simp only [hwin, if_true]
            simp [hwf (by simpa using hmv)]
          | false =>
            simp only [hwin, Bool.false_eq_true, if_false]
            cases hd : checkDrawLogic (placePieceInternal gs.board msg.x msg.y msg.player).snd with
            | true => simp [hd]
            | false => simp [hd, hgo, hw0]
    | false =>
      simp only [hmv, Bool.false_eq_true, if_false]
      cases hch : (msg.type == MsgTypeChat) with
      | true =>
        cases hne : (msg.player != gs.playerID) <;> simp [hch, hne, hgo, hw0]
      | false =>
        simp only [hch, Bool.false_eq_true, if_false]
        cases hst : (msg.type == MsgTypeState) with
        | true => simp [hst, bne_iff_ne]
        | false =>
          simp only [hst, Bool.false_eq_true, if_false]
          cases has : (msg.type == MsgTypeAssign) with
          | true =>
            cases h0 : (gs.playerID == 0) <;> simp [has, h0, hgo, hw0]
          | false => simp [has, hgo, hw0]

/-- The local-move critical section preserves the winner/game-over
invariant whenever the mover's id is nonzero (which `handleUserInput`
guarantees before reaching it). -/
theorem winnerInv_applyLocalMove (gs : GameState) (x y pid : Int)
    (hpid : pid ≠ 0) (hinv : WinnerInv gs) :
    WinnerInv (applyLocalMove gs x y pid).state := by
  unfold WinnerInv at *
  unfold applyLocalMove
  cases ht : (gs.currentPlayer == pid && !gs.gameOver) with
  | false => simp [ht, hinv]
  | true =>
    have hgo : gs.gameOver = false := by
      rcases Bool.and_eq_true .. |>.mp ht with ⟨_, h2⟩
      simpa using h2
    rw [hgo] at hinv
    have hw0 : gs.winner = 0 := by simpa using hinv
    simp only [ht, if_true]
    cases hv : (placePieceInternal gs.board x y pid).fst with
    | false => simp [hv, hgo, hw0]
    | true =>
      simp only [hv, if_true]
      cases hwin : checkWinLogic (placePieceInternal gs.board x y pid).snd pid with
      | true => simp [hwin, hpid]
      | false =>
        simp only [hwin, Bool.false_eq_true, if_false]
        cases hd : checkDrawLogic (placePieceInternal gs.board x y pid).snd with
        | true => simp [hd]
        | false => simp [hd, hgo, hw0]

/-- Preservation: `handleUserInput` keeps the winner/game-over invariant. -/
theorem winnerInv_handleUserInput (gs : GameState) (input : String)
    (hinv : WinnerInv gs) : WinnerInv (handleUserInput gs input).fst := by
  unfold handleUserInput
  cases h0 : (gs.playerID == 0) with
  | true =>
    simp only [h0, if_true]
    exact hinv
  | false =>
    simp only [h0, Bool.false_eq_true, if_false]
    cases hgo : gs.gameOver with
    | true =>
      simp only [hgo, if_true]
      exact hinv
    | false =>
      have hw0 : gs.winner = 0 := by
        have h := hinv
        rw [WinnerInv, hgo] at h
        simpa using h
      simp only [hgo, Bool.not_false, Bool.and_true, Bool.false_eq_true, if_false]
      cases hmt : ((gs.playerID != 0) && (gs.currentPlayer == gs.playerID)) with
      | false =>
        simp only [hmt, Bool.not_false, if_true]
        exact hinv
      | true =>
        simp only [hmt, Bool.not_true, Bool.false_eq_true, if_false]
        cases hpre : hasPrefixGo input ("/c ") with
        | true =>
          simp only [hpre, if_true]
          cases hne : (String.mk (input.data.drop 3) != "") with
          | true =>
            simp only [hne, if_true]
            simp [WinnerInv, hw0]
          | false =>
            simp only [hne, Bool.false_eq_true, if_false]
            exact hinv
        | false =>
          simp only [hpre, Bool.false_eq_true, if_false]
          cases hlen : ((splitOnComma input.data).length == 2) with
          | false =>
            simp only [hlen, Bool.false_eq_true, if_false]
            exact hinv
          | true =>
            simp only [hlen, if_true]
            have hpid : gs.playerID ≠ 0 := by simpa using h0
            cases hA : Atoi (trimSpaceGo ((splitOnComma input.data).getD 0 [])) with
            | none =>
              cases hB : Atoi (trimSpaceGo ((splitOnComma input.data).getD 1 [])) with
              | none => exact hinv
              | some y => exact hinv
            | some x =>
              cases hB : Atoi (trimSpaceGo ((splitOnComma input.data).getD 1 [])) with
              | none => exact hinv
              | some y =>
                have happ := winnerInv_applyLocalMove gs x y gs.playerID hpid hinv
                cases hvm : (applyLocalMove gs x y gs.playerID).validMove with
                | false =>
                  simp only [hvm, Bool.false_eq_true, if_false]
                  exact happ
                | true =>
                  simp only [hvm, if_true]
                  cases hwd : ((applyLocalMove gs x y gs.playerID).win
                      || (applyLocalMove gs x y gs.playerID).draw) with
                  | true =>
                    simp only [hwd, if_true]
                    exact happ
                  | false =>
                    simp only [hwd, Bool.false_eq_true, if_false]
                    exact happ

/-- One step of the event loop preserves the winner/game-over invariant
for well-formed events. -/
theorem winnerInv_stepEvent (gs : GameState) (e : GameEvent)
    (hwf : MoveSenderNonzero e) (hinv : WinnerInv gs) :
    WinnerInv (stepEvent gs e) := by
  cases e with
  | net msg => exact winnerInv_handleNetworkMessage gs msg hwf hinv
  | input line => exact winnerInv_handleUserInput gs line hinv

/-- C6 (amended): in every state the event handlers reach from an
initial state with `gameOver = false` and `winner = 0`, by any sequence
of network and input events whose inbound `Move` messages carry a
nonzero sender field, `gameOver = true` holds iff `winner ≠ 0`.
(The nonzero-sender restriction is necessary — see the
counterexample, where a `Move` with sender 0 yields `gameOver = true`
with `winner = 0`.) -/
theorem gameOver_iff_winner_nonzero (gs0 : GameState)
    (hgo : gs0.gameOver = false) (hw : gs0.winner = 0)
    (events : List GameEvent) (hwf : ∀ e ∈ events, MoveSenderNonzero e) :
    WinnerInv (List.foldl stepEvent gs0 events) := by
  have hinv0 : WinnerInv gs0 := by rw [WinnerInv, hgo, hw]; simp
  clear hgo hw
  induction events generalizing gs0 with
  | nil => exact hinv0
  | cons e es ih =>
    rw [List.foldl_cons]
    exact ih (stepEvent gs0 e)
      (fun e' he' => hwf e' (List.mem_cons_of_mem e he'))
      (winnerInv_stepEvent gs0 e (hwf e (List.mem_cons_self e es)) hinv0)

/-- Counterexample for C6 as stated: from the initial state, the event
sequence `Assign(player=2)`, `State(turn=0, winner=0)`,
`Move(player=0, x=0, y=0)` is accepted by `handleNetworkMessage` and
ends with `gameOver = true` while `winner = 0` — the invariant
`gameOver ↔ winner ≠ 0` is violated in a reachable state. -/
theorem gameOver_winner_invariant_counterexample :
    (List.foldl stepEvent initialState
      [GameEvent.net { type := MsgTypeAssign, player := 2 },
       GameEvent.net { type := MsgTypeState, turn := 0, winner := 0 },
       GameEvent.net { type := MsgTypeMove, player := 0, x := 0, y := 0 }]).gameOver = true ∧
    (List.foldl stepEvent initialState
      [GameEvent.net { type := MsgTypeAssign, player := 2 },
       GameEvent.net { type := MsgTypeState, turn := 0, winner := 0 },
       GameEvent.net { type := MsgTypeMove, player := 0, x := 0, y := 0 }]).winner = 0 := by
  decide

/-- Witness for C6 at a concrete input: an assignment, an inbound move
by player 1 and a local input line, all well-formed, preserve the
invariant from the initial state. -/
theorem gameOver_iff_winner_nonzero_witness :
    WinnerInv (List.foldl stepEvent initialState
      [GameEvent.net { type := MsgTypeAssign, player := 2 },
       GameEvent.net { type := MsgTypeMove, player := 1, x := 0, y := 0 },
       GameEvent.input ("3,3")]) := by
  apply gameOver_iff_winner_nonzero initialState rfl rfl
  intro e he
  simp only [List.mem_cons, List.not_mem_nil, or_false] at he
  rcases he with rfl | rfl | rfl
  · simp [MoveSenderNonzero, MsgTypeAssign, MsgTypeMove]
  · simp [MoveSenderNonzero, MsgTypeMove]
  · simp [MoveSenderNonzero]

/-- C9 (amended): a local input line prefixed by the chat marker
`"/c "` with non-empty text is appended to the local chat log and an
outbound `Chat` message is queued, provided the local player is
assigned, the game is not over, and it is the local player's turn.
(Without the turn condition the claim fails — see the counterexample:
`handleUserInput` drops all input, chat included, when it is not the
local player's turn.) -/
theorem chat_input_logged_and_queued (gs : GameState) (input : String)
    (hpid : gs.playerID ≠ 0) (hturn : gs.currentPlayer = gs.playerID)
    (hgo : gs.gameOver = false)
    (hpre : hasPrefixGo input ("/c ") = true)
    (hne : String.mk (input.data.drop 3) ≠ "") :
    (handleUserInput gs input).fst.chatHistory
      = AddChatMessage gs.chatHistory ("You (Player " ++ toString gs.playerID ++ ")")
          (String.mk (input.data.drop 3)) ∧
    (handleUserInput gs input).snd
      = [{ type := MsgTypeChat, player := gs.playerID,
           content := String.mk (input.data.drop 3) }] := by
  unfold handleUserInput
  have h0 : (gs.playerID == 0) = false := by simp [hpid]
  have hmt : ((gs.playerID != 0) && (gs.currentPlayer == gs.playerID) && !gs.gameOver) = true := by
    simp [hpid, hturn, hgo]
  have hne' : (String.mk (input.data.drop 3) != "") = true := by simp [hne]
  simp [h0, hgo, hmt, hpre, hne', hpid, hturn]

/-- Counterexample for C9 as stated: the chat line `"/c hi"` (chat
marker, non-empty text) is silently dropped — no chat-log append, no
queued message — when it is not the local player's turn
(`currentPlayer = 2`, `playerID = 1`). -/
theorem chat_input_logged_and_queued_counterexample :
    hasPrefixGo ("/c hi") ("/c ") = true ∧
    String.mk (("/c hi").data.drop 3) ≠ "" ∧
    (handleUserInput
      { board := NewBoard BoardSize, currentPlayer := 2, winner := 0,
        gameOver := false, playerID := 1, chatHistory := [] } ("/c hi")).fst.chatHistory = [] ∧
    (handleUserInput
      { board := NewBoard BoardSize, currentPlayer := 2, winner := 0,
        gameOver := false, playerID := 1, chatHistory := [] } ("/c hi")).snd = [] := by
  decide

/-- Witness for C9 at a concrete input: the chat line `"/c hello"`
typed by player 1 on their turn is logged and queued. -/
theorem chat_input_logged_and_queued_witness :
    (handleUserInput
      { board := NewBoard BoardSize, currentPlayer := 1, winner := 0,
        gameOver := false, playerID := 1, chatHistory := [] } ("/c hello")).fst.chatHistory
      = AddChatMessage [] ("You (Player " ++ toString (1 : Int) ++ ")")
          (String.mk (("/c hello").data.drop 3)) ∧
    (handleUserInput
      { board := NewBoard BoardSize, currentPlayer := 1, winner := 0,
        gameOver := false, playerID := 1, chatHistory := [] } ("/c hello")).snd
      = [{ type := MsgTypeChat, player := 1,
           content := String.mk (("/c hello").data.drop 3) }] :=
  chat_input_logged_and_queued
    { board := NewBoard BoardSize, currentPlayer := 1, winner := 0,
      gameOver := false, playerID := 1, chatHistory := [] } ("/c hello")
    (by decide) rfl rfl (by decide) (by decide)

end Gomoku
